import Mathlib

/-!
Verification development for the MangaReaderV2 image pipeline.

This file gives a shallow embedding of the platform-aware image delivery and
caching pipeline of the repository: the request gateway (`src/api/client.ts`,
`makeRequest`), the image resolution functions (`src/api/manga.ts`
`getPageImageUrl`, `src/utils/imageUtils.ts` `getDirectImageUrl` and
`getImageSource`), the page cache (`src/store/mangaStore.ts` `getPageUrl` over
the module-level `imageCache`), the reader preload lists
(`src/components/reader/PageReader.tsx` and `VerticalReader.tsx`
`preloadAdjacentPages`), and the reader screen's page-index updates and
debounced progress reporting (`src/app/(main)/reader/[chapterId].tsx`).

Asynchronous effects are made explicit: timestamps, network responses and
rejected promises are inputs; state is passed explicitly; functions that the
source lets throw are embedded in `Except`, and functions that catch every
error return `Option`.
-/

/-- Platforms distinguished by `Platform.OS` in the source: `web` versus the
native platforms, which the source tests as `Platform.OS === 'web'` or
`Platform.OS !== 'web'`. -/
inductive ClientPlatform
  | web
  | native
deriving DecidableEq, Repr

/-- The credential store (`src/utils/storage.ts`, `getItem` over
`StorageKeys.BASE_URL`, `StorageKeys.API_KEY`, `StorageKeys.JWT_TOKEN`):
each key holds a string or null. -/
structure Storage where
  baseUrl : Option String
  apiKey : Option String
  jwtToken : Option String
deriving DecidableEq, Repr

/-- A storage with nothing stored. -/
def emptyStorage : Storage := ⟨none, none, none⟩

/-- JavaScript falsiness of a string-or-null value: `null` and the empty
string are falsy.  This is the test `!baseUrl` / `!apiKey` in the source. -/
def jsFalsyStr : Option String → Bool
  | none => true
  | some s => s == ""

/-- `pat` occurs as a contiguous substring of `s`
(JavaScript `String.prototype.includes`). -/
def strIncludes (s pat : String) : Bool :=
  (List.range (s.data.length + 1)).any fun i => pat.data.isPrefixOf (s.data.drop i)

/-- `src/api/client.ts` lines 284-288: a target endpoint is image-bearing when
it contains one of five substrings.  This test appears in the source inside the
web branch of `makeRequest` only. -/
def isImageEndpoint (endpoint : String) : Bool :=
  strIncludes endpoint "/image" || strIncludes endpoint "/cover" ||
    strIncludes endpoint "series-cover" || strIncludes endpoint "volume-cover" ||
    strIncludes endpoint "chapter-cover"

/-- The response representation `makeRequest` asks of the transport layer
(axios): the default JSON-parsed body, or a raw binary body
(`responseType: 'arraybuffer'`). -/
inductive RespType
  | json
  | binary
deriving DecidableEq, Repr

/-- How the request reaches the server: through the relay proxy
(web: `POST {proxyUrl}/api-proxy` with the real target in the JSON envelope)
or directly (`{baseUrl}/api/{endpoint}`). -/
inductive Route
  | proxy
  | direct
deriving DecidableEq, Repr

/-- What `makeRequest` is about to hand to the transport layer. -/
structure NetPlan where
  route : Route
  respType : RespType
deriving DecidableEq, Repr

/-- `src/api/client.ts` `makeRequest`, modeled up to the transport call: the
stored-configuration check and the platform dispatch that together decide
whether the call fails before any network traffic (`Except.error` with the
thrown message) or reaches the transport layer, and with which route and
response representation.  `getProxyBaseUrl` is never null on the web platform
(it has a development default and a production fallback), so the
`Proxy URL not configured` branch is unreachable and is not modeled; query
string and header assembly are elided because no claim mentions them.  On the
native branch the source calls `apiClient.get`/`apiClient.post` with no
`responseType` option, so axios parses JSON. -/
def makeRequestPlan (platform : ClientPlatform) (sto : Storage)
    (endpoint : String) : Except String NetPlan :=
  if jsFalsyStr sto.baseUrl then
    .error "Server URL not configured"
  else
    match platform with
    | .web =>
      if isImageEndpoint endpoint then .ok ⟨.proxy, .binary⟩
      else .ok ⟨.proxy, .json⟩
    | .native => .ok ⟨.direct, .json⟩

/-- Query-string assembly of `src/utils/imageUtils.ts` `getDirectImageUrl`
(lines 274-277 of the later iteration).  All call sites pass numeric values,
and `encodeURIComponent` of a number is its decimal string, so parameters are
modeled as string-to-number pairs. -/
def queryString (params : List (String × Nat)) : String :=
  String.intercalate "&" (params.map fun p => p.1 ++ "=" ++ toString p.2)

/-- `src/utils/imageUtils.ts` `getDirectImageUrl` (lines 257-285): empty on
web; empty when base URL or API key is absent (falsy); otherwise the direct
authenticated URL with `apiKey` appended last. -/
def getDirectImageUrl (platform : ClientPlatform) (sto : Storage)
    (endpoint : String) (params : List (String × Nat)) : String :=
  match platform with
  | .web => ""
  | .native =>
    if jsFalsyStr sto.baseUrl || jsFalsyStr sto.apiKey then ""
    else
      sto.baseUrl.getD "" ++ "/api/" ++ endpoint ++ "?" ++ queryString params
        ++ "&apiKey=" ++ sto.apiKey.getD ""

/-- A value of the source's `ImageSource` type (`src/utils/imageUtils.ts`,
later iteration: `string | Blob | null`, the null case being `Option.none`
at use sites): a URL string or binary blob data. -/
inductive ImageSrc
  | urlString (s : String)
  | blobData (bytes : List Nat)
deriving DecidableEq, Repr

/-- JavaScript falsiness of an `ImageSource`-or-null value: null and the empty
string are falsy; a Blob object is always truthy.  This is the test
`!imageSource` / `!source` in the source. -/
def jsFalsySrc : Option ImageSrc → Bool
  | none => true
  | some (.urlString s) => s == ""
  | some (.blobData _) => false

/-- `URL.createObjectURL` (via `createImageUrl` in
`src/utils/imageUtils.ts` lines 176-192): the browser chooses an opaque
nonempty object URL; it is modeled as a deterministic nonempty string derived
from the cache key.  No claim depends on the URL's actual text, only on it
being a usable nonempty URI. -/
def createImageUrl (cacheKey : String) : String :=
  "blob:" ++ cacheKey

/-- `src/utils/imageUtils.ts` `getImageSource` (later iteration, lines
228-248): null for a falsy source; an object URL for blob data on web; the
string itself for a URL string; null for blob data on native. -/
def getImageSource (platform : ClientPlatform) (source : Option ImageSrc)
    (cacheKey : String) : Option String :=
  if jsFalsySrc source then none
  else
    match platform, source with
    | .web, some (.blobData _) => some (createImageUrl cacheKey)
    | _, some (.urlString s) => some s
    | .native, some (.blobData _) => none
    | _, none => none

/-- The network's answer to the single transport call a request performs:
a 2xx response carrying image data, or a failure (transport error or non-2xx
status), which axios surfaces by throwing. -/
inductive NetResult
  | ok (data : ImageSrc)
  | fail (status : Nat) (msg : String)
deriving DecidableEq, Repr

/-- `src/api/manga.ts` `getPageImageUrl` (lines 390-405): on native, the
direct URL from `getDirectImageUrl('reader/image', { chapterId, page })` with
no network call; on web, the body fetched through `makeRequest` — any throw
(configuration error before the call, or network failure during it) is caught
and becomes null.  Returns the result paired with the number of network calls
performed. -/
def getPageImageUrl (platform : ClientPlatform) (sto : Storage)
    (chapterId pageNumber : Nat) (net : NetResult) : Option ImageSrc × Nat :=
  match platform with
  | .native =>
    (some (.urlString (getDirectImageUrl .native sto "reader/image"
      [("chapterId", chapterId), ("page", pageNumber)])), 0)
  | .web =>
    match makeRequestPlan .web sto "reader/image" with
    | .error _ => (none, 0)
    | .ok _ =>
      match net with
      | .ok d => (some d, 1)
      | .fail _ _ => (none, 1)

/-- `const CACHE_EXPIRY = 10 * 60 * 1000` (`src/store/mangaStore.ts` line 90):
ten minutes in milliseconds. -/
def CACHE_EXPIRY : Int := 10 * 60 * 1000

/-- One entry of the module-level `imageCache`
(`src/store/mangaStore.ts` line 89): `{ url, timestamp }`. -/
structure CacheEntry where
  url : String
  timestamp : Int
deriving DecidableEq, Repr

/-- The mutable state `getPageUrl` touches: the module-level `imageCache`
record and the store's `chapterPageUrls` record.  JavaScript string-keyed
records are modeled as association lists where assignment prepends and lookup
takes the newest binding. -/
structure StoreState where
  imageCache : List (String × CacheEntry)
  chapterPageUrls : List (String × String)
deriving DecidableEq, Repr

/-- The store state at module load: both records empty. -/
def emptyStore : StoreState := ⟨[], []⟩

/-- Record lookup (`imageCache[cacheKey]`). -/
def cacheLookup (c : List (String × CacheEntry)) (k : String) : Option CacheEntry :=
  (c.find? fun p => p.1 == k).map (·.2)

/-- The cache key `` `page_${chapterId}_${pageNumber}` `` of
`src/store/mangaStore.ts` line 393. -/
def pageCacheKey (chapterId pageNumber : Nat) : String :=
  "page_" ++ toString chapterId ++ "_" ++ toString pageNumber

/-- The `chapterPageUrls` key `` `${chapterId}_${pageNumber}` `` of
`src/store/mangaStore.ts` line 423. -/
def pageUrlStateKey (chapterId pageNumber : Nat) : String :=
  toString chapterId ++ "_" ++ toString pageNumber

/-- The cache check at the top of `getPageUrl` (lines 393-397): an entry
exists and `Date.now() - cachedImage.timestamp < CACHE_EXPIRY` at lookup
time `now`. -/
def cacheHit (st : StoreState) (chapterId pageNumber : Nat) (now : Int) : Bool :=
  match cacheLookup st.imageCache (pageCacheKey chapterId pageNumber) with
  | some e => decide (now - e.timestamp < CACHE_EXPIRY)
  | none => false

/-- The outcome of `await getPageImageUrl(...)` as seen by `getPageUrl`,
together with the possibility that an inner await rejects (caught by
`getPageUrl`'s try/catch). -/
inductive ResolveOutcome
  | value (v : Option ImageSrc)
  | thrown (msg : String)
deriving DecidableEq, Repr

/-- What one `getPageUrl` call produces: the returned value, the store state
after the call, and whether the fresh-resolution path ran (instrumentation
marking that a network/decode operation was started; it is `true` exactly on
the branches that call `getPageImageUrl`). -/
structure PageUrlResult where
  result : Option String
  state : StoreState
  resolved : Bool
deriving DecidableEq, Repr

/-- The fresh-resolution tail of `src/store/mangaStore.ts` `getPageUrl`
(lines 400-431): everything after the cache check misses.  A rejected inner
await is caught and yields null; a null or falsy `imageSource` yields null; a
null or empty converted URI yields null; otherwise the URI is returned after
writing the cache entry (timestamped with the second `Date.now()`, at write
time `nowWrite`) and the `chapterPageUrls` entry.  All writes are after the
awaits, so a failure leaves the state untouched. -/
def getPageUrlFresh (st : StoreState) (chapterId pageNumber : Nat)
    (platform : ClientPlatform) (nowWrite : Int) (outcome : ResolveOutcome) :
    PageUrlResult :=
  match outcome with
  | .thrown _ => ⟨none, st, true⟩
  | .value v =>
    if jsFalsySrc v then ⟨none, st, true⟩
    else
      match getImageSource platform v (pageCacheKey chapterId pageNumber) with
      | none => ⟨none, st, true⟩
      | some uri =>
        if uri == "" then ⟨none, st, true⟩
        else
          ⟨some uri,
            ⟨(pageCacheKey chapterId pageNumber, ⟨uri, nowWrite⟩) :: st.imageCache,
              (pageUrlStateKey chapterId pageNumber, uri) :: st.chapterPageUrls⟩,
            true⟩

/-- `src/store/mangaStore.ts` `getPageUrl` (lines 390-432), with the outcome
of the awaited resolution supplied as an input: return the cached URL when the
cache check hits, otherwise run the fresh-resolution tail. -/
def getPageUrl (st : StoreState) (chapterId pageNumber : Nat)
    (platform : ClientPlatform) (nowLookup nowWrite : Int)
    (outcome : ResolveOutcome) : PageUrlResult :=
  match cacheLookup st.imageCache (pageCacheKey chapterId pageNumber) with
  | some e =>
    if nowLookup - e.timestamp < CACHE_EXPIRY then ⟨some e.url, st, false⟩
    else getPageUrlFresh st chapterId pageNumber platform nowWrite outcome
  | none => getPageUrlFresh st chapterId pageNumber platform nowWrite outcome

/-- `getPageUrl` composed with the `getPageImageUrl` call it awaits, counting
the network calls issued beneath it.  The network's answer `net` is consulted
only if the transport call actually happens. -/
def getPageUrlNet (platform : ClientPlatform) (sto : Storage) (st : StoreState)
    (chapterId pageNumber : Nat) (nowLookup nowWrite : Int) (net : NetResult) :
    PageUrlResult × Nat :=
  match cacheLookup st.imageCache (pageCacheKey chapterId pageNumber) with
  | some e =>
    if nowLookup - e.timestamp < CACHE_EXPIRY then (⟨some e.url, st, false⟩, 0)
    else
      let r := getPageImageUrl platform sto chapterId pageNumber net
      (getPageUrlFresh st chapterId pageNumber platform nowWrite (.value r.1), r.2)
  | none =>
    let r := getPageImageUrl platform sto chapterId pageNumber net
    (getPageUrlFresh st chapterId pageNumber platform nowWrite (.value r.1), r.2)

/-- Two `getPageUrl` calls for the same key whose cache checks (at times `t1`
and `t2`) both happen before either call's completion write reaches the cache
— the interleaving in which the second call arrives while the first is in
flight.  The cache is only written in the completion phase (after the awaits),
so both checks see the same state `st`; the count is how many of the two calls
start a resolution. -/
def interleavedResolutionStarts (st : StoreState) (chapterId pageNumber : Nat)
    (t1 t2 : Int) : Nat :=
  (if cacheHit st chapterId pageNumber t1 then 0 else 1) +
    (if cacheHit st chapterId pageNumber t2 then 0 else 1)

/-- The fields of the source's `ReadingProgress` interface that the reader
screen consumes when seeding the page index (`progress.pageNum`); the ids and
timestamp fields are never read there and are omitted. -/
structure ReadingProgress where
  pageNum : Int
deriving DecidableEq, Repr

/-- `src/app/(main)/reader/[chapterId].tsx` lines 78-82: the current page is
seeded from stored reading progress verbatim when present, else 0. -/
def seedCurrentPage (progress : Option ReadingProgress) : Int :=
  match progress with
  | some pr => pr.pageNum
  | none => 0

/-- The back navigation button (line 269): `Math.max(1, currentPage - 1)`. -/
def navBack (currentPage : Int) : Int := max 1 (currentPage - 1)

/-- The forward navigation button (line 286):
`Math.min(totalPages, currentPage + 1)`. -/
def navForward (totalPages currentPage : Int) : Int :=
  min totalPages (currentPage + 1)

/-- `src/components/reader/PageReader.tsx` `preloadAdjacentPages` (lines
99-117): candidates next, next-after-next, previous; keep those with
`pageNum > 0 && pageNum <= pages.length`. -/
def preloadAdjacentPagesPaged (currentPageNumber totalPages : Int) : List Int :=
  [currentPageNumber + 1, currentPageNumber + 2, currentPageNumber - 1].filter
    fun pageNum => decide (0 < pageNum) && decide (pageNum ≤ totalPages)

/-- `src/components/reader/VerticalReader.tsx` `preloadAdjacentPages` (lines
157-175): candidates next three pages, same filter, no backward candidate. -/
def preloadAdjacentPagesVertical (currentPageNumber totalPages : Int) : List Int :=
  [currentPageNumber + 1, currentPageNumber + 2, currentPageNumber + 3].filter
    fun pageNum => decide (0 < pageNum) && decide (pageNum ≤ totalPages)

/-- One server call the reader screen could issue from its progress timer. -/
inductive ServerCall
  | progressReport (chapterId page : Int)
  | markRead (chapterId : Int)
deriving DecidableEq, Repr

/-- The body of the debounced timeout in `handleProgressUpdate`
(`src/app/(main)/reader/[chapterId].tsx` lines 137-153) as shipped: the
statements `await updateReadingProgress(chapterIdNum, pageNumber)` and
`await markChapterAsRead(chapterIdNum)` are commented out in the source, so
the body performs no server call whatsoever — the `currentChapterInfo` check
and the `pageNumber === totalPages` comparison guard only comments.  This is
the literal shipped code, not a simplification. -/
def progressTimerBody (_hasChapterInfo : Bool) (_chapterId _totalPages _pageNumber : Int) :
    List ServerCall :=
  []

/-- The timer discipline of `handleProgressUpdate` (lines 128-156) run over a
time-ordered list of page-change events `(t, p)`: each event clears the
pending timeout, if any, and schedules a new one at `t + 2000` carrying its
page; a pending timeout whose deadline has passed by the time of the next
event has already fired.  Returns the list of `(fireTime, page)` firings,
including the final pending timeout, which fires once events stop. -/
def runDebounce : Option (Int × Int) → List (Int × Int) → List (Int × Int)
  | some f, [] => [f]
  | none, [] => []
  | some (ft, fp), (t, p) :: rest =>
    if ft ≤ t then (ft, fp) :: runDebounce (some (t + 2000, p)) rest
    else runDebounce (some (t + 2000, p)) rest
  | none, (t, p) :: rest => runDebounce (some (t + 2000, p)) rest

/-- All firings of the progress timer for a page-change event sequence,
starting with no timer pending. -/
def debounceFires (events : List (Int × Int)) : List (Int × Int) :=
  runDebounce none events

/-- The server calls the reader screen issues for a page-change event
sequence: each timer firing runs the shipped timer body. -/
def debouncedServerCalls (hasChapterInfo : Bool) (chapterId totalPages : Int)
    (events : List (Int × Int)) : List ServerCall :=
  (debounceFires events).flatMap fun f =>
    progressTimerBody hasChapterInfo chapterId totalPages f.2

/-- `loadChapterData` (`src/app/(main)/reader/[chapterId].tsx` lines 68-72)
builds the page objects with `pageNumber: i` for `i` running over
`0 .. info.pages - 1`; these are the page numbers scroll-driven viewability
events report. -/
def pageObjectNumbers (totalPages : Nat) : List Nat := List.range totalPages

/-! ## Helper lemmas shared by several claims -/

/-- The fresh-resolution tail either fails, leaving the state untouched, or
returns a nonempty URI written into both records. -/
theorem getPageUrlFresh_cases (st : StoreState) (c p : Nat)
    (pf : ClientPlatform) (w : Int) (o : ResolveOutcome) :
    getPageUrlFresh st c p pf w o = ⟨none, st, true⟩ ∨
      ∃ uri, (uri == "") = false ∧
        getPageUrlFresh st c p pf w o =
          ⟨some uri,
            ⟨(pageCacheKey c p, ⟨uri, w⟩) :: st.imageCache,
              (pageUrlStateKey c p, uri) :: st.chapterPageUrls⟩,
            true⟩ := by
  cases o with
  | thrown m => exact Or.inl rfl
  | value v =>
    by_cases hf : jsFalsySrc v = true
    · exact Or.inl (by simp [getPageUrlFresh, hf])
    · cases hg : getImageSource pf v (pageCacheKey c p) with
      | none => exact Or.inl (by simp [getPageUrlFresh, hf, hg])
      | some uri =>
        by_cases hu : (uri == "") = true
        · exact Or.inl (by simp [getPageUrlFresh, hf, hg, hu])
        · refine Or.inr ⟨uri, by simpa using hu, ?_⟩
          simp [getPageUrlFresh, hf, hg, hu]

/-- The fresh-resolution tail always marks the resolution flag. -/
theorem getPageUrlFresh_resolved (st : StoreState) (c p : Nat)
    (pf : ClientPlatform) (w : Int) (o : ResolveOutcome) :
    (getPageUrlFresh st c p pf w o).resolved = true := by
  rcases getPageUrlFresh_cases st c p pf w o with h | ⟨uri, _, h⟩ <;> rw [h]

/-- A false cache check sends `getPageUrl` into the fresh-resolution tail. -/
theorem getPageUrl_of_miss (st : StoreState) (c p : Nat) (pf : ClientPlatform)
    (nowL nowW : Int) (o : ResolveOutcome)
    (h : cacheHit st c p nowL = false) :
    getPageUrl st c p pf nowL nowW o = getPageUrlFresh st c p pf nowW o := by
  unfold getPageUrl
  unfold cacheHit at h
  cases hq : cacheLookup st.imageCache (pageCacheKey c p) with
  | none => rfl
  | some e =>
    rw [hq] at h
    simp only [decide_eq_false_iff_not] at h
    simp [h]

/-- A true cache check returns the stored URL and leaves the state alone. -/
theorem getPageUrl_of_hit (st : StoreState) (c p : Nat) (pf : ClientPlatform)
    (nowL nowW : Int) (o : ResolveOutcome) (e : CacheEntry)
    (he : cacheLookup st.imageCache (pageCacheKey c p) = some e)
    (hf : nowL - e.timestamp < CACHE_EXPIRY) :
    getPageUrl st c p pf nowL nowW o = ⟨some e.url, st, false⟩ := by
  unfold getPageUrl
  simp [he, hf]

/-- A false cache check sends the composed `getPageUrlNet` into the fresh
tail fed by the real `getPageImageUrl` call. -/
theorem getPageUrlNet_of_miss (pf : ClientPlatform) (sto : Storage)
    (st : StoreState) (c p : Nat) (nowL nowW : Int) (net : NetResult)
    (h : cacheHit st c p nowL = false) :
    getPageUrlNet pf sto st c p nowL nowW net =
      (getPageUrlFresh st c p pf nowW
          (.value (getPageImageUrl pf sto c p net).1),
        (getPageImageUrl pf sto c p net).2) := by
  unfold getPageUrlNet
  unfold cacheHit at h
  cases hq : cacheLookup st.imageCache (pageCacheKey c p) with
  | none => rfl
  | some e =>
    rw [hq] at h
    simp only [decide_eq_false_iff_not] at h
    simp [h]

/-- The cache check succeeds exactly when an unexpired entry exists. -/
theorem cacheHit_iff (st : StoreState) (c p : Nat) (now : Int) :
    cacheHit st c p now = true ↔
      ∃ e, cacheLookup st.imageCache (pageCacheKey c p) = some e ∧
        now - e.timestamp < CACHE_EXPIRY := by
  unfold cacheHit
  cases hq : cacheLookup st.imageCache (pageCacheKey c p) <;> simp [hq]

/-- A true cache check short-circuits the composed `getPageUrlNet` with no
network call. -/
theorem getPageUrlNet_of_hit (pf : ClientPlatform) (sto : Storage)
    (st : StoreState) (c p : Nat) (nowL nowW : Int) (net : NetResult)
    (e : CacheEntry)
    (he : cacheLookup st.imageCache (pageCacheKey c p) = some e)
    (hf : nowL - e.timestamp < CACHE_EXPIRY) :
    getPageUrlNet pf sto st c p nowL nowW net = (⟨some e.url, st, false⟩, 0) := by
  unfold getPageUrlNet
  simp [he, hf]

/-! ## Claim theorems -/

/-- C3: for every current page `n` and total count `T`, the paged reader
preloads exactly the candidates `{n+1, n+2, n-1}` that lie in `[1, T]` and the
vertical reader exactly the candidates `{n+1, n+2, n+3}` that lie in `[1, T]`;
nothing outside `[1, T]` is ever scheduled; in particular `preload(5, 20)`
schedules `{6, 7, 4}` and `preload(20, 20)` schedules only `{19}`. -/
theorem preload_neighborhood_within_bounds (n T p : Int) :
    (p ∈ preloadAdjacentPagesPaged n T ↔
      (p = n + 1 ∨ p = n + 2 ∨ p = n - 1) ∧ 1 ≤ p ∧ p ≤ T) ∧
    (p ∈ preloadAdjacentPagesVertical n T ↔
      (p = n + 1 ∨ p = n + 2 ∨ p = n + 3) ∧ 1 ≤ p ∧ p ≤ T) ∧
    preloadAdjacentPagesPaged 5 20 = [6, 7, 4] ∧
    preloadAdjacentPagesPaged 20 20 = [19] := by
  refine ⟨?_, ?_, by decide, by decide⟩
  · simp only [preloadAdjacentPagesPaged, List.mem_filter, List.mem_cons,
      List.not_mem_nil, or_false, Bool.and_eq_true, decide_eq_true_eq]
    omega
  · simp only [preloadAdjacentPagesVertical, List.mem_filter, List.mem_cons,
      List.not_mem_nil, or_false, Bool.and_eq_true, decide_eq_true_eq]
    omega

/-- Witness for C3 at the spec's example inputs. -/
theorem preload_neighborhood_within_bounds_witness :
    (6 : Int) ∈ preloadAdjacentPagesPaged 5 20 ∧
      preloadAdjacentPagesPaged 20 20 = [19] :=
  ⟨((preload_neighborhood_within_bounds 5 20 6).1).mpr (by decide),
    (preload_neighborhood_within_bounds 5 20 6).2.2.2⟩

/-- C2 (evaluation of the shipped code at the claimed scenario): five
page-change events at 0, 400, 800, 1200 and 1600 ms produce exactly one
trailing-edge timer firing, at 3600 ms, carrying the final page 5 — but the
shipped timer body performs no server call at all, for this or any event
sequence, because the progress-report and mark-read calls are commented out
in the source. -/
theorem progress_debounce_eval :
    debounceFires [(0, 1), (400, 2), (800, 3), (1200, 4), (1600, 5)] = [(3600, 5)] ∧
    debouncedServerCalls true 42 5 [(0, 1), (400, 2), (800, 3), (1200, 4), (1600, 5)] = [] ∧
    ∀ (hasInfo : Bool) (chId T : Int) (evs : List (Int × Int)),
      debouncedServerCalls hasInfo chId T evs = [] := by
  refine ⟨by decide, by decide, ?_⟩
  intro hasInfo chId T evs
  simp [debouncedServerCalls, progressTimerBody]

/-- C1 counterexample: with the key uncached, a second `getPageUrl` call for
the same key whose cache check runs while the first call's resolution is still
in flight (before its completion write) also misses and starts its own
resolution: both of the two interleaved calls start one, refuting
"at most one resolution in flight per key". -/
theorem getPageUrl_inflight_dedup_cex :
    cacheHit emptyStore 1 1 0 = false ∧
    (getPageUrl emptyStore 1 1 .native 0 0 (.thrown "still pending")).resolved = true ∧
    interleavedResolutionStarts emptyStore 1 1 0 0 = 2 ∧
    ¬ interleavedResolutionStarts emptyStore 1 1 0 0 ≤ 1 := by decide

/-- C6 counterexample: with no stored base URL, `makeRequest` throws before
any network call with the message "Server URL not configured" (capital S), not
the claimed "server URL not configured". -/
theorem makeRequest_configError_message_cex :
    makeRequestPlan .native emptyStorage "reader/image" =
      .error "Server URL not configured" ∧
    makeRequestPlan .web emptyStorage "reader/image" =
      .error "Server URL not configured" ∧
    makeRequestPlan .native emptyStorage "reader/image" ≠
      .error "server URL not configured" :=
  ⟨rfl, rfl, fun h => absurd (Except.error.inj h) (by decide)⟩

/-- C7 counterexample: on the native platform `makeRequest` for the
image-bearing target `reader/image` asks the transport layer for the default
JSON-parsed representation, not a binary one — the binary classification
exists only in the web branch. -/
theorem makeRequest_native_json_cex :
    isImageEndpoint "reader/image" = true ∧
    makeRequestPlan .native ⟨some "http://host", none, none⟩ "reader/image" =
      .ok ⟨.direct, .json⟩ ∧
    RespType.json ≠ RespType.binary :=
  ⟨by decide, rfl, by decide⟩

/-- C9 counterexample: with 10 pages, seeding from stored progress with
`pageNum = 15` sets `currentPageIndex` to 15, outside `[0, 10)` — the seed is
not clamped; and the forward button from page 9 reaches 10 = `totalPages`,
also outside the 0-based range `[0, 10)`. -/
theorem currentPage_out_of_range_cex :
    seedCurrentPage (some ⟨15⟩) = 15 ∧ ¬ seedCurrentPage (some ⟨15⟩) < 10 ∧
    navForward 10 9 = 10 ∧ ¬ navForward 10 9 < 10 := by decide

/-- C1 amended: `getPageUrl` performs no in-flight deduplication — whenever
the key is uncached, a second call whose cache check runs before the first
call's completion write starts a duplicate resolution; deduplication happens
only through the completed cache entry: once a resolution has been written,
a later call within the TTL returns it without starting a new one. -/
theorem getPageUrl_dedup_only_after_completion (st : StoreState) (c p : Nat)
    (t1 t2 : Int) :
    (cacheLookup st.imageCache (pageCacheKey c p) = none →
      interleavedResolutionStarts st c p t1 t2 = 2) ∧
    (∀ (e : CacheEntry) (pf : ClientPlatform) (nowW : Int) (o : ResolveOutcome),
      cacheLookup st.imageCache (pageCacheKey c p) = some e →
      t1 - e.timestamp < CACHE_EXPIRY →
      getPageUrl st c p pf t1 nowW o = ⟨some e.url, st, false⟩) := by
  constructor
  · intro h
    unfold interleavedResolutionStarts cacheHit
    rw [h]
    simp
  · intro e pf nowW o he hf
    exact getPageUrl_of_hit st c p pf t1 nowW o e he hf

/-- Witness for C1 amended: the uncached side at an empty store, and the
after-completion side at a store holding a fresh entry. -/
theorem getPageUrl_dedup_only_after_completion_witness :
    interleavedResolutionStarts emptyStore 2 3 100 200 = 2 ∧
    getPageUrl ⟨[("page_2_3", ⟨"u", 50⟩)], []⟩ 2 3 .native 100 200 (.value none) =
      ⟨some "u", ⟨[("page_2_3", ⟨"u", 50⟩)], []⟩, false⟩ :=
  ⟨(getPageUrl_dedup_only_after_completion emptyStore 2 3 100 200).1 (by decide),
    (getPageUrl_dedup_only_after_completion ⟨[("page_2_3", ⟨"u", 50⟩)], []⟩ 2 3
      100 200).2 ⟨"u", 50⟩ .native 200 (.value none) (by decide) (by decide)⟩

/-- C4: `getPageUrl` returns from the cache (no resolution started) exactly
when an entry for the key exists whose age at lookup time is strictly below
`CACHE_EXPIRY`; such a hit returns the stored URL unchanged; an entry aged
`CACHE_EXPIRY` or more is never returned — the fresh-resolution tail runs
instead; and expiry is lazy: a failing fresh resolution leaves the state —
including the stale entry — untouched, there being no background eviction. -/
theorem getPageUrl_ttl (st : StoreState) (c p : Nat) (pf : ClientPlatform)
    (nowL nowW : Int) (o : ResolveOutcome) :
    ((getPageUrl st c p pf nowL nowW o).resolved = false ↔
      ∃ e, cacheLookup st.imageCache (pageCacheKey c p) = some e ∧
        nowL - e.timestamp < CACHE_EXPIRY) ∧
    (∀ e, cacheLookup st.imageCache (pageCacheKey c p) = some e →
      (nowL - e.timestamp < CACHE_EXPIRY →
        getPageUrl st c p pf nowL nowW o = ⟨some e.url, st, false⟩) ∧
      (CACHE_EXPIRY ≤ nowL - e.timestamp →
        getPageUrl st c p pf nowL nowW o = getPageUrlFresh st c p pf nowW o ∧
        (getPageUrl st c p pf nowL nowW o).resolved = true)) ∧
    (getPageUrlFresh st c p pf nowW (.value none)).state = st ∧
    (getPageUrlFresh st c p pf nowW (.thrown "network error")).state = st := by
  refine ⟨?_, ?_, rfl, rfl⟩
  · cases hq : cacheLookup st.imageCache (pageCacheKey c p) with
    | none =>
      have hmiss : cacheHit st c p nowL = false := by unfold cacheHit; rw [hq]
      rw [getPageUrl_of_miss st c p pf nowL nowW o hmiss]
      simp [getPageUrlFresh_resolved, hq]
    | some e =>
      by_cases hlt : nowL - e.timestamp < CACHE_EXPIRY
      · rw [getPageUrl_of_hit st c p pf nowL nowW o e hq hlt]
        exact iff_of_true rfl ⟨e, rfl, hlt⟩
      · have hmiss : cacheHit st c p nowL = false := by
          unfold cacheHit
          rw [hq]
          exact decide_eq_false hlt
        rw [getPageUrl_of_miss st c p pf nowL nowW o hmiss]
        refine iff_of_false ?_ ?_
        · simp [getPageUrlFresh_resolved st c p pf nowW o]
        · rintro ⟨e2, he2, hlt2⟩
          cases he2
          exact hlt hlt2
  · intro e he
    constructor
    · intro hlt
      exact getPageUrl_of_hit st c p pf nowL nowW o e he hlt
    · intro hge
      have hmiss : cacheHit st c p nowL = false := by
        unfold cacheHit
        rw [he]
        exact decide_eq_false (not_lt.mpr hge)
      rw [getPageUrl_of_miss st c p pf nowL nowW o hmiss]
      exact ⟨rfl, getPageUrlFresh_resolved st c p pf nowW o⟩

/-- Witness for C4: a hit one millisecond before expiry returns the entry;
at exactly ten minutes of age the fresh tail runs instead. -/
theorem getPageUrl_ttl_witness :
    getPageUrl ⟨[("page_1_2", ⟨"u", 0⟩)], []⟩ 1 2 .native 599999 599999 (.value none) =
      ⟨some "u", ⟨[("page_1_2", ⟨"u", 0⟩)], []⟩, false⟩ ∧
    getPageUrl ⟨[("page_1_2", ⟨"u", 0⟩)], []⟩ 1 2 .native 600000 600001 (.value none) =
      getPageUrlFresh ⟨[("page_1_2", ⟨"u", 0⟩)], []⟩ 1 2 .native 600001 (.value none) :=
  ⟨((getPageUrl_ttl ⟨[("page_1_2", ⟨"u", 0⟩)], []⟩ 1 2 .native 599999 599999
      (.value none)).2.1 ⟨"u", 0⟩ (by decide)).1 (by decide),
    (((getPageUrl_ttl ⟨[("page_1_2", ⟨"u", 0⟩)], []⟩ 1 2 .native 600000 600001
      (.value none)).2.1 ⟨"u", 0⟩ (by decide)).2 (by decide)).1⟩

/-- C5: on a cache miss, a rejected inner await and a null resolution result
both make `getPageUrl` return null with the state untouched (failures are
never memoized — no cache entry is written), so any later call for the same
key over that state attempts resolution anew; and on the web path a failing
transport call is absorbed by `getPageImageUrl` into a null result. -/
theorem getPageUrl_absorbs_failures (st : StoreState) (c p : Nat)
    (pf : ClientPlatform) (nowL nowW : Int) (msg : String)
    (hm : cacheHit st c p nowL = false) :
    getPageUrl st c p pf nowL nowW (.thrown msg) = ⟨none, st, true⟩ ∧
    getPageUrl st c p pf nowL nowW (.value none) = ⟨none, st, true⟩ ∧
    (∀ (sto : Storage) (status : Nat) (m : String),
      (getPageImageUrl .web sto c p (.fail status m)).1 = none) ∧
    (∀ (nowL2 nowW2 : Int) (o2 : ResolveOutcome),
      cacheHit st c p nowL2 = false →
      (getPageUrl st c p pf nowL2 nowW2 o2).resolved = true) := by
  refine ⟨?_, ?_, ?_, ?_⟩
  · rw [getPageUrl_of_miss st c p pf nowL nowW _ hm]
    rfl
  · rw [getPageUrl_of_miss st c p pf nowL nowW _ hm]
    rfl
  · intro sto status m
    simp only [getPageImageUrl]
    cases hq : makeRequestPlan .web sto "reader/image" <;> simp [hq]
  · intro nowL2 nowW2 o2 hm2
    rw [getPageUrl_of_miss st c p pf nowL2 nowW2 o2 hm2]
    exact getPageUrlFresh_resolved st c p pf nowW2 o2

/-- Witness for C5 at an empty store on the web platform. -/
theorem getPageUrl_absorbs_failures_witness :
    getPageUrl emptyStore 4 5 .web 0 0 (.thrown "decode failed") =
      ⟨none, emptyStore, true⟩ :=
  (getPageUrl_absorbs_failures emptyStore 4 5 .web 0 0 "decode failed" (by decide)).1

/-- C6 amended: with no stored base URL, `makeRequest` fails before any
network call with the message "Server URL not configured" (capital S, a plain
thrown `Error` playing the spec's `ConfigurationError` role), and on either
platform resolving a page over an uncached key returns null with zero network
calls and the state untouched. -/
theorem makeRequest_no_baseUrl (pf : ClientPlatform) (sto : Storage)
    (st : StoreState) (c p : Nat) (nowL nowW : Int) (net : NetResult)
    (hb : jsFalsyStr sto.baseUrl = true) (hm : cacheHit st c p nowL = false) :
    makeRequestPlan pf sto "reader/image" = .error "Server URL not configured" ∧
    (getPageUrlNet pf sto st c p nowL nowW net).2 = 0 ∧
    (getPageUrlNet pf sto st c p nowL nowW net).1 = ⟨none, st, true⟩ := by
  have hplan : makeRequestPlan pf sto "reader/image" =
      .error "Server URL not configured" := by
    unfold makeRequestPlan
    rw [if_pos hb]
  rw [getPageUrlNet_of_miss pf sto st c p nowL nowW net hm]
  refine ⟨hplan, ?_, ?_⟩ <;> cases pf
  · have hweb : makeRequestPlan .web sto "reader/image" =
        .error "Server URL not configured" := by
      unfold makeRequestPlan
      rw [if_pos hb]
    simp [getPageImageUrl, hweb]
  · simp [getPageImageUrl]
  · have hweb : makeRequestPlan .web sto "reader/image" =
        .error "Server URL not configured" := by
      unfold makeRequestPlan
      rw [if_pos hb]
    simp [getPageImageUrl, hweb, getPageUrlFresh, jsFalsySrc]
  · simp [getPageImageUrl, getDirectImageUrl, hb, getPageUrlFresh, jsFalsySrc]

/-- Witness for C6 amended at empty storage and empty store on web. -/
theorem makeRequest_no_baseUrl_witness :
    makeRequestPlan .web emptyStorage "reader/image" =
      .error "Server URL not configured" ∧
    (getPageUrlNet .web emptyStorage emptyStore 1 2 0 0 (.ok (.blobData [1]))).2 = 0 := by
  have h := makeRequest_no_baseUrl .web emptyStorage emptyStore 1 2 0 0
    (.ok (.blobData [1])) (by decide) (by decide)
  exact ⟨h.1, h.2.1⟩

/-- C7 amended: image-bearing classification is exactly the five-substring
test, and it governs the response representation on the web platform only:
a web request gets the binary representation exactly when its target is
image-bearing, while a native request always gets the JSON representation
(on native, images are fetched via direct URLs outside `makeRequest`). -/
theorem makeRequest_image_classification (sto : Storage) (endpoint : String)
    (hb : jsFalsyStr sto.baseUrl = false) :
    isImageEndpoint endpoint =
      (strIncludes endpoint "/image" || strIncludes endpoint "/cover" ||
        strIncludes endpoint "series-cover" || strIncludes endpoint "volume-cover" ||
        strIncludes endpoint "chapter-cover") ∧
    (∀ plan : NetPlan, makeRequestPlan .web sto endpoint = .ok plan →
      (plan.respType = .binary ↔ isImageEndpoint endpoint = true)) ∧
    (∀ plan : NetPlan, makeRequestPlan .native sto endpoint = .ok plan →
      plan.respType = .json) := by
  refine ⟨rfl, ?_, ?_⟩
  · intro plan hp
    simp [makeRequestPlan, hb] at hp
    by_cases hi : isImageEndpoint endpoint = true
    · rw [if_pos hi] at hp
      injection hp with hp2
      subst hp2
      simp [hi]
    · rw [if_neg hi] at hp
      injection hp with hp2
      subst hp2
      simp [hi]
  · intro plan hp
    simp [makeRequestPlan, hb] at hp
    subst hp
    rfl

/-- Witness for C7 amended at a configured storage and the page-image
target. -/
theorem makeRequest_image_classification_witness :
    NetPlan.respType ⟨Route.proxy, RespType.binary⟩ = RespType.binary ↔
      isImageEndpoint "reader/image" = true :=
  (makeRequest_image_classification ⟨some "http://host2", none, none⟩
    "reader/image" (by decide)).2.1 ⟨.proxy, .binary⟩ rfl

/-- C8: on native with a stored base URL and API key, page resolution builds
the direct URL `{baseUrl}/api/{endpoint}?{params}&apiKey={apiKey}` with the
API key as the final query parameter, performs zero network calls, and returns
that URL; when the base URL or API key is absent (falsy), resolution returns
null, still with zero network calls. -/
theorem getDirectImageUrl_native (sto : Storage) (b k : String) (c p : Nat)
    (hb : sto.baseUrl = some b) (hk : sto.apiKey = some k)
    (hbne : b ≠ "") (hkne : k ≠ "") :
    (∀ ps : List (String × Nat),
      getDirectImageUrl .native sto "reader/image" ps =
        b ++ "/api/" ++ "reader/image" ++ "?" ++ queryString ps ++ "&apiKey=" ++ k) ∧
    getDirectImageUrl .native ⟨some "http://h", some "KEY", none⟩ "reader/image"
        [("chapterId", 3), ("page", 7)] =
      "http://h/api/reader/image?chapterId=3&page=7&apiKey=KEY" ∧
    (∀ (st : StoreState) (nowL nowW : Int) (net : NetResult),
      (getPageUrlNet .native sto st c p nowL nowW net).2 = 0) ∧
    (∀ (st : StoreState) (nowL nowW : Int) (net : NetResult),
      cacheHit st c p nowL = false →
      (getPageUrlNet .native sto st c p nowL nowW net).1.result =
        some (getDirectImageUrl .native sto "reader/image"
          [("chapterId", c), ("page", p)])) ∧
    (∀ (sto2 : Storage) (st : StoreState) (nowL nowW : Int) (net : NetResult),
      (jsFalsyStr sto2.baseUrl || jsFalsyStr sto2.apiKey) = true →
      cacheHit st c p nowL = false →
      getPageUrlNet .native sto2 st c p nowL nowW net = (⟨none, st, true⟩, 0)) := by
  have h1 : (b == "") = false := beq_eq_false_iff_ne.mpr hbne
  have h2 : (k == "") = false := beq_eq_false_iff_ne.mpr hkne
  have hform : ∀ ps : List (String × Nat),
      getDirectImageUrl .native sto "reader/image" ps =
        b ++ "/api/" ++ "reader/image" ++ "?" ++ queryString ps ++ "&apiKey=" ++ k := by
    intro ps
    simp [getDirectImageUrl, hb, hk, jsFalsyStr, h1, h2]
  have hne : ∀ ps : List (String × Nat),
      (getDirectImageUrl .native sto "reader/image" ps == "") = false := by
    intro ps
    rw [hform ps]
    simp only [beq_eq_false_iff_ne, ne_eq]
    intro he
    apply hbne
    have hd := congrArg String.data he
    simp only [String.data_append] at hd
    rcases List.append_eq_nil.mp hd with ⟨hd2, _⟩
    rcases List.append_eq_nil.mp hd2 with ⟨hd3, _⟩
    rcases List.append_eq_nil.mp hd3 with ⟨hd4, _⟩
    rcases List.append_eq_nil.mp hd4 with ⟨hd5, _⟩
    rcases List.append_eq_nil.mp hd5 with ⟨hd6, _⟩
    rcases List.append_eq_nil.mp hd6 with ⟨hd7, _⟩
    cases b
    simp_all
  refine ⟨hform, by decide, ?_, ?_, ?_⟩
  · intro st nowL nowW net
    by_cases hcc : cacheHit st c p nowL = true
    · obtain ⟨e, he, hf⟩ := (cacheHit_iff st c p nowL).mp hcc
      rw [getPageUrlNet_of_hit .native sto st c p nowL nowW net e he hf]
    · rw [getPageUrlNet_of_miss .native sto st c p nowL nowW net (by simpa using hcc)]
      rfl
  · intro st nowL nowW net hm
    rw [getPageUrlNet_of_miss .native sto st c p nowL nowW net hm]
    simp [getPageImageUrl, getPageUrlFresh, jsFalsySrc, getImageSource,
      hne [("chapterId", c), ("page", p)]]
  · intro sto2 st nowL nowW net habs hm
    rw [getPageUrlNet_of_miss .native sto2 st c p nowL nowW net hm]
    simp [getPageImageUrl, getDirectImageUrl, habs, getPageUrlFresh, jsFalsySrc]

/-- Witness for C8 at a concrete configured storage. -/
theorem getDirectImageUrl_native_witness :
    getDirectImageUrl .native ⟨some "http://h", some "KEY", none⟩ "reader/image"
        [("chapterId", 3), ("page", 7)] =
      "http://h/api/reader/image?chapterId=3&page=7&apiKey=KEY" :=
  (getDirectImageUrl_native ⟨some "http://h", some "KEY", none⟩ "http://h" "KEY"
    3 7 rfl rfl (by decide) (by decide)).2.1

/-- C9 amended: the page index is not confined to `[0, totalPages)` — seeding
from stored progress stores the reported `pageNum` verbatim, unclamped (else
0); the navigation buttons clamp, but to the inclusive range
`[1, totalPages]`, whose upper end is one past the 0-based bound; the
scroll-reported page numbers of the built page objects do lie in
`[0, totalPages)`. -/
theorem currentPage_clamp_partial :
    (∀ pr : ReadingProgress, seedCurrentPage (some pr) = pr.pageNum) ∧
    seedCurrentPage none = 0 ∧
    (∀ T c : Int, 1 ≤ c → c ≤ T →
      1 ≤ navForward T c ∧ navForward T c ≤ T ∧
      1 ≤ navBack c ∧ navBack c ≤ T) ∧
    (∀ T : Nat, ∀ pn ∈ pageObjectNumbers T, pn < T) := by
  refine ⟨fun pr => rfl, rfl, ?_, ?_⟩
  · intro T c hc1 hc2
    unfold navForward navBack
    omega
  · intro T pn hpn
    simpa [pageObjectNumbers] using hpn

/-- Witness for C9 amended at ten pages, current page nine. -/
theorem currentPage_clamp_partial_witness :
    1 ≤ navForward 10 9 ∧ navForward 10 9 ≤ 10 ∧
      1 ≤ navBack 9 ∧ navBack 9 ≤ 10 :=
  currentPage_clamp_partial.2.2.1 10 9 (by decide) (by decide)

/-- C10: on a cache hit `getPageUrl` returns the cached URL and leaves the
whole store state — both the cache and `chapterPageUrls` — unchanged; and
`chapterPageUrls` gains an entry only when a fresh resolution succeeds, in
which case exactly the new page entry is prepended to each record. -/
theorem getPageUrl_cache_hit_frame (st : StoreState) (c p : Nat)
    (pf : ClientPlatform) (nowL nowW : Int) (o : ResolveOutcome) (e : CacheEntry)
    (he : cacheLookup st.imageCache (pageCacheKey c p) = some e)
    (hf : nowL - e.timestamp < CACHE_EXPIRY) :
    getPageUrl st c p pf nowL nowW o = ⟨some e.url, st, false⟩ ∧
    (∀ st2 : StoreState,
      (getPageUrl st2 c p pf nowL nowW o).state.chapterPageUrls ≠ st2.chapterPageUrls →
      ∃ uri, (uri == "") = false ∧
        getPageUrl st2 c p pf nowL nowW o =
          ⟨some uri,
            ⟨(pageCacheKey c p, ⟨uri, nowW⟩) :: st2.imageCache,
              (pageUrlStateKey c p, uri) :: st2.chapterPageUrls⟩,
            true⟩) := by
  refine ⟨getPageUrl_of_hit st c p pf nowL nowW o e he hf, ?_⟩
  intro st2 hne
  by_cases hcc : cacheHit st2 c p nowL = true
  · obtain ⟨e2, he2, hf2⟩ := (cacheHit_iff st2 c p nowL).mp hcc
    rw [getPageUrl_of_hit st2 c p pf nowL nowW o e2 he2 hf2] at hne
    exact absurd rfl hne
  · rw [getPageUrl_of_miss st2 c p pf nowL nowW o (by simpa using hcc)] at hne ⊢
    rcases getPageUrlFresh_cases st2 c p pf nowW o with h | ⟨uri, hu, h⟩
    · rw [h] at hne
      exact absurd rfl hne
    · exact ⟨uri, hu, h⟩

/-- Witness for C10 at a store holding a fresh entry beside unrelated data. -/
theorem getPageUrl_cache_hit_frame_witness :
    getPageUrl ⟨[("page_7_8", ⟨"w", 100⟩)], [("0_0", "y")]⟩ 7 8 .web 200 300
        (.value none) =
      ⟨some "w", ⟨[("page_7_8", ⟨"w", 100⟩)], [("0_0", "y")]⟩, false⟩ :=
  (getPageUrl_cache_hit_frame ⟨[("page_7_8", ⟨"w", 100⟩)], [("0_0", "y")]⟩ 7 8
    .web 200 300 (.value none) ⟨"w", 100⟩ (by decide) (by decide)).1
